import Mathlib

/-!
# Verification of the OAuth/token-vault core of `notion_mcp_clean`

Shallow embedding of the security- and concurrency-sensitive core of the
repository: the Secret Codec (`src/apps/server/src/utils/crypto.ts`), the
OAuth callback validator (`callback.service.ts`), the token vault and
refresh governor (`token.service.ts` / `token.repository.ts`), the
metadata discoverer (`discovery.service.ts`) and the upstream request
orchestrator (`mcp-request.handler.ts`).

Conventions of the embedding:
* Times are epoch milliseconds as `Nat`; `Date.now()` becomes an explicit
  `now` parameter.  Network and database work take zero model time.
* Byte buffers are `List Nat`.
* The AES-256-GCM primitive of `node:crypto` (an external library, not
  code of this repository) is modelled as an ideal authenticated cipher:
  the data part is a CTR-style keystream XOR of the plaintext bytes and
  the authentication tag is a perfect MAC over (key, iv, data), carried
  as an opaque value.  The repository's own logic around the primitive —
  the 32-byte key check, the tag being carried together with the
  ciphertext, failure instead of partial plaintext — is embedded from the
  source.
* Fallible TypeScript code (`throw`) becomes `Except`; `redis`/`pg`
  effects become explicit state passing on a per-user state record.
-/

namespace NotionMCP

/-- Error classes of `src/apps/server/src/utils/errors.ts` that the
embedded core can raise. -/
inductive CoreError where
  | badKeyLength            -- "Encryption key must be exactly 32 bytes"
  | decryptionFailed        -- auth-tag mismatch inside node:crypto
  | oauthUnknownState       -- OAuthStateError "Unknown state parameter"
  | oauthReplayDetected     -- OAuthStateError "State already consumed …"
  | oauthStateExpired       -- OAuthStateError "State expired"
  | oauthOwnershipMismatch  -- OAuthStateError "State does not belong …"
  | tokenExchangeError      -- TokenExchangeError
  | noConnection            -- NoConnectionError
  | reconnectionRequired    -- ReconnectionRequired
  | tokenRefreshError       -- TokenRefreshError
  | concurrentRefreshTimeout  -- ConcurrentRefreshTimeout
  deriving DecidableEq, Repr

/-! ## Secret Codec — `utils/crypto.ts`, `encryptAES256GCM` / `decryptAES256GCM` -/

/-- Keystream of the modelled AES-256-GCM CTR core: a concrete mixing
function of key, iv and byte index (stands in for the AES block cipher
of `node:crypto`, which is not code of this repository). -/
def keystream (key iv : List Nat) (i : Nat) : Nat :=
  (key.foldl (fun a b => a * 31 + b) 7 +
   iv.foldl (fun a b => a * 131 + b) 11 + i * 2654435761) % 256

/-- XOR the byte list with the keystream (both encryption and decryption
direction of the CTR core). -/
def gcmXor (key iv : List Nat) (bs : List Nat) : List Nat :=
  (List.range bs.length).zipWith (fun i b => Nat.xor b (keystream key iv i)) bs

/-- The authentication tag of the modelled GCM: a perfect MAC over
(key, iv, ciphertext), carried opaquely.  Real AES-GCM realises this
computationally; the 16 raw tag bytes of the source are abstracted into
this value. -/
structure AuthTag where
  key : List Nat
  iv : List Nat
  data : List Nat
  deriving DecidableEq, Repr

/-- The stored buffer: ciphertext with the authentication tag appended
(`Buffer.concat([encrypted, authTag])` in the source). -/
structure CipherBlob where
  data : List Nat
  tag : AuthTag
  deriving DecidableEq, Repr

/-- `EncryptionResult` of `utils/crypto.ts`: `{ciphertext, iv, authTag}`;
the `ciphertext` field already carries the appended tag. -/
structure EncryptionResult where
  ciphertext : CipherBlob
  iv : List Nat
  deriving DecidableEq, Repr

def strToBytes (s : String) : List Nat := s.data.map Char.toNat

def bytesToStr (bs : List Nat) : String := ⟨bs.map Char.ofNat⟩

/-- `encryptAES256GCM(plaintext, keyBase64)`: validates the 32-byte key,
encrypts under a caller-supplied fresh iv (the source draws 12 random
bytes; randomness is a parameter here), appends the tag. -/
def encryptAES256GCM (plaintext : String) (key : List Nat) (iv : List Nat) :
    Except CoreError EncryptionResult :=
  if key.length ≠ 32 then .error .badKeyLength
  else
    let encrypted := gcmXor key iv (strToBytes plaintext)
    .ok ⟨⟨encrypted, ⟨key, iv, encrypted⟩⟩, iv⟩

/-- `decryptAES256GCM(ciphertextWithTag, iv, keyBase64)`: validates the
key, splits off the appended tag, checks it, and only then decrypts;
a tag mismatch raises instead of returning any plaintext. -/
def decryptAES256GCM (blob : CipherBlob) (iv : List Nat) (key : List Nat) :
    Except CoreError String :=
  if key.length ≠ 32 then .error .badKeyLength
  else if blob.tag = ⟨key, iv, blob.data⟩ then
    .ok (bytesToStr (gcmXor key iv blob.data))
  else .error .decryptionFailed

theorem gcmXor_gcmXor (key iv bs : List Nat) :
    gcmXor key iv (gcmXor key iv bs) = bs := by
  simp only [gcmXor, List.length_zipWith, List.length_range, Nat.min_self]
  apply List.ext_getElem
  · simp
  · intro i h1 h2
    simp only [List.getElem_zipWith, List.getElem_range]
    exact Nat.xor_cancel_right _ _

theorem bytesToStr_strToBytes (s : String) : bytesToStr (strToBytes s) = s := by
  cases s with
  | mk data =>
    show String.mk (List.map Char.ofNat (List.map Char.toNat data)) = String.mk data
    rw [List.map_map]
    have h : (Char.ofNat ∘ Char.toNat) = id := by
      funext c; simp [Function.comp, Char.ofNat_toNat]
    rw [h, List.map_id]

/-! ## `config/constants.ts` -/

def TOKEN_REFRESH_BUFFER_MS : Nat := 300 * 1000
def TOKEN_REFRESH_LOCK_TTL_SECONDS : Nat := 30
def TOKEN_REFRESH_WAIT_TIMEOUT_MS : Nat := 5000
def TOKEN_REFRESH_WAIT_POLL_MS : Nat := 250
def TOKEN_REFRESH_MAX_RETRIES : Nat := 3

/-! ## `token.encryption.ts` — `encryptToken` / `decryptToken`

The process-wide `TOKEN_ENCRYPTION_KEY` becomes the `key` parameter;
the fresh random iv drawn inside `encryptAES256GCM` is a parameter. -/

def encryptToken (key iv : List Nat) (plaintext : String) :
    Except CoreError EncryptionResult :=
  encryptAES256GCM plaintext key iv

def decryptToken (key : List Nat) (ct : CipherBlob) (iv : List Nat) :
    Except CoreError String :=
  decryptAES256GCM ct iv key

/-! ## OAuth state rows — `oauth_states` table and `callback.service.ts` -/

/-- A row of `oauth_states` (migration 003; `state_value` is UNIQUE). -/
structure StateRow where
  id : Nat
  state_value : String
  user_id : String
  encrypted_pkce_verifier : CipherBlob
  pkce_verifier_iv : List Nat
  expires_at : Nat
  consumed : Bool
  deriving DecidableEq, Repr

/-- `CallbackValidation` of `oauth.types.ts`. -/
structure CallbackValidation where
  valid : Bool
  verifier : String
  userId : String
  deriving DecidableEq, Repr

/-- `validateCallbackState(receivedState, sessionUserId)` of
`callback.service.ts`: lookup by state value, then the consumed /
expiry / ownership checks in source order; marks the row consumed
before decrypting and returning the verifier.  Returns the result
together with the updated `oauth_states` table. -/
def validateCallbackState (key : List Nat) (db : List StateRow)
    (receivedState sessionUserId : String) (now : Nat) :
    Except CoreError CallbackValidation × List StateRow :=
  match db.find? (fun r => r.state_value = receivedState) with
  | none => (.error .oauthUnknownState, db)
  | some r =>
    if r.consumed then (.error .oauthReplayDetected, db)
    else if r.expires_at < now then
      (.error .oauthStateExpired, db.filter (fun q => q.id ≠ r.id))
    else if r.user_id ≠ sessionUserId then (.error .oauthOwnershipMismatch, db)
    else
      let db' := db.map (fun q => if q.id = r.id then { q with consumed := true } else q)
      match decryptAES256GCM r.encrypted_pkce_verifier r.pkce_verifier_iv key with
      | .error e => (.error e, db')
      | .ok verifier => (.ok ⟨true, verifier, r.user_id⟩, db')

/-! ## Connection rows — `notion_connections` table, `token.repository.ts` -/

inductive ConnStatus where
  | active
  | disconnected
  deriving DecidableEq, Repr

/-- A `notion_connections` row (`StoredConnection` of `token.types.ts`),
for one user. -/
structure Conn where
  encrypted_access_token : Option CipherBlob
  access_token_iv : Option (List Nat)
  encrypted_refresh_token : Option CipherBlob
  refresh_token_iv : Option (List Nat)
  expires_at : Nat
  scope : Option String
  workspace_id : Option String
  workspace_name : Option String
  status : ConnStatus
  refresh_count : Nat
  last_used_at : Option Nat
  refreshed_at : Option Nat
  disconnected_at : Option Nat
  created_at : Nat
  updated_at : Nat
  deriving DecidableEq, Repr

/-- Per-user mutable state: the `notion_connections` row, the redis
`access_token:{userId}` cache entry (value with the TTL it was set
with), and the redis `token_refresh:{userId}` lock value. -/
structure VaultState where
  conn : Option Conn
  cache : Option (String × Nat)
  lock : Option String
  deriving DecidableEq, Repr

/-- Parameters of `upsertConnection` in `token.repository.ts`. -/
structure UpsertParams where
  encryptedAccessToken : EncryptionResult
  encryptedRefreshToken : Option EncryptionResult
  expiresAt : Nat
  scope : Option String
  workspaceId : Option String
  workspaceName : Option String
  deriving DecidableEq, Repr

/-- `upsertConnection`: INSERT … ON CONFLICT (user_id) DO UPDATE; both
paths set the token fields, `status = 'active'`, `refresh_count = 0`
and (on update) `disconnected_at = NULL`. -/
def upsertConnection (v : VaultState) (now : Nat) (p : UpsertParams) : VaultState :=
  let updated : Conn :=
    match v.conn with
    | none =>
      { encrypted_access_token := some p.encryptedAccessToken.ciphertext
        access_token_iv := some p.encryptedAccessToken.iv
        encrypted_refresh_token := p.encryptedRefreshToken.map (·.ciphertext)
        refresh_token_iv := p.encryptedRefreshToken.map (·.iv)
        expires_at := p.expiresAt
        scope := p.scope
        workspace_id := p.workspaceId
        workspace_name := p.workspaceName
        status := .active
        refresh_count := 0
        last_used_at := none
        refreshed_at := none
        disconnected_at := none
        created_at := now
        updated_at := now }
    | some c =>
      { c with
        encrypted_access_token := some p.encryptedAccessToken.ciphertext
        access_token_iv := some p.encryptedAccessToken.iv
        encrypted_refresh_token := p.encryptedRefreshToken.map (·.ciphertext)
        refresh_token_iv := p.encryptedRefreshToken.map (·.iv)
        expires_at := p.expiresAt
        scope := p.scope
        workspace_id := p.workspaceId
        workspace_name := p.workspaceName
        status := .active
        refresh_count := 0
        disconnected_at := none
        updated_at := now }
  { v with conn := some updated }

/-- Parameters of `updateTokensAfterRefresh`. -/
structure RefreshUpdateParams where
  encryptedAccessToken : EncryptionResult
  encryptedRefreshToken : Option EncryptionResult
  expiresAt : Nat
  deriving DecidableEq, Repr

/-- `updateTokensAfterRefresh`: UPDATE of the token fields,
`expires_at`, `refreshed_at = NOW()`, `refresh_count + 1`; a missing
row is left untouched (UPDATE over zero rows). -/
def updateTokensAfterRefresh (v : VaultState) (now : Nat) (p : RefreshUpdateParams) :
    VaultState :=
  { v with conn := v.conn.map (fun c =>
      { c with
        encrypted_access_token := some p.encryptedAccessToken.ciphertext
        access_token_iv := some p.encryptedAccessToken.iv
        encrypted_refresh_token := p.encryptedRefreshToken.map (·.ciphertext)
        refresh_token_iv := p.encryptedRefreshToken.map (·.iv)
        expires_at := p.expiresAt
        refreshed_at := some now
        refresh_count := c.refresh_count + 1
        updated_at := now }) }

/-- `disconnectUser`: UPDATE setting `status = 'disconnected'` and all
four token columns NULL. -/
def disconnectUser (v : VaultState) (now : Nat) : VaultState :=
  { v with conn := v.conn.map (fun c =>
      { c with
        status := .disconnected
        encrypted_access_token := none
        access_token_iv := none
        encrypted_refresh_token := none
        refresh_token_iv := none
        disconnected_at := some now
        updated_at := now }) }

/-- `touchLastUsed`: UPDATE of `last_used_at`. -/
def touchLastUsed (v : VaultState) (now : Nat) : VaultState :=
  { v with conn := v.conn.map (fun c =>
      { c with last_used_at := some now, updated_at := now }) }

/-! ## `token.service.ts` — store, read, refresh, disconnect -/

/-- `TokenResponse` of `oauth.types.ts` (fields the core reads). -/
structure TokenResponse where
  access_token : String
  refresh_token : Option String
  expires_in : Option Nat
  scope : Option String
  workspace_id : Option String
  workspace_name : Option String
  deriving DecidableEq, Repr

/-- One year in seconds — the default lifetime when the provider sends
no `expires_in`. -/
def DEFAULT_EXPIRES_IN_SECONDS : Nat := 365 * 24 * 60 * 60

/-- `storeTokens(userId, tokenData)`: encrypt both tokens (fresh ivs
`ivA`/`ivR`), compute `expires_at`, upsert the row, drop the cached
plaintext token. -/
def storeTokens (key ivA ivR : List Nat) (v : VaultState) (now : Nat)
    (tokenData : TokenResponse) : Except CoreError VaultState :=
  match encryptToken key ivA tokenData.access_token with
  | .error e => .error e
  | .ok encA =>
    match (match tokenData.refresh_token with
           | some rt => (encryptToken key ivR rt).map some
           | none => .ok none : Except CoreError (Option EncryptionResult)) with
    | .error e => .error e
    | .ok encR =>
      let expiresInSeconds := tokenData.expires_in.getD DEFAULT_EXPIRES_IN_SECONDS
      let expiresAt := now + expiresInSeconds * 1000
      let v1 := upsertConnection v now
        ⟨encA, encR, expiresAt, tokenData.scope, tokenData.workspace_id, tokenData.workspace_name⟩
      .ok { v1 with cache := none }

/-- Outcome of a vault call: the value or error, the resulting per-user
state, and how many token-endpoint fetches were made. -/
structure TokenOutcome where
  result : Except CoreError String
  state : VaultState
  endpointCalls : Nat
  deriving Repr

/-- One answer of the provider's token endpoint to a refresh fetch. -/
inductive RefreshResponse where
  | ok (tok : TokenResponse)          -- 2xx with body
  | badRequest (errorCode : Option String)  -- 400, parsed body error field
  | rateLimited (retryAfter : Nat)    -- 429
  | httpError (status : Nat)          -- other non-2xx
  | network                           -- fetch threw
  deriving Repr

/-- The poll loop of `waitForRefresh`: iteration `i` sleeps 250 ms and
then reads the Connection row (`obs i`); it returns the decrypted
access token once the row's `expires_at` exceeds the poll time by more
than 60 s and both access-token fields are present.  The loop guard
`Date.now() - startedAt < 5000` admits polls `i = 0 … 19`, hence fuel
20.  Each iteration is modelled as costing exactly the 250 ms sleep. -/
def waitLoop (key : List Nat) (obs : Nat → Option Conn) (start : Nat) :
    Nat → Nat → Except CoreError String
  | 0, _ => .error .concurrentRefreshTimeout
  | fuel + 1, i =>
    let pollTime := start + (i + 1) * TOKEN_REFRESH_WAIT_POLL_MS
    match obs i with
    | some c =>
      if c.expires_at > pollTime + 60000 then
        match c.encrypted_access_token, c.access_token_iv with
        | some ct, some iv => decryptToken key ct iv
        | _, _ => waitLoop key obs start fuel (i + 1)
      else waitLoop key obs start fuel (i + 1)
    | none => waitLoop key obs start fuel (i + 1)

/-- `waitForRefresh(userId)` of `token.service.ts`. -/
def waitForRefresh (key : List Nat) (obs : Nat → Option Conn) (start : Nat) :
    Except CoreError String :=
  waitLoop key obs start (TOKEN_REFRESH_WAIT_TIMEOUT_MS / TOKEN_REFRESH_WAIT_POLL_MS) 0

/-- The `for (attempt …)` retry loop inside `refreshAccessToken`.
Returns (result, state, number of token-endpoint fetches made).
Branches, as in the source: 2xx → persist rotated tokens, drop cache,
return token; 400 `invalid_grant` → disconnect, drop cache, fail
`ReconnectionRequired`; other 400 / other non-2xx → fail
`TokenRefreshError` at once; 429 and network errors → retry (an
encryption failure inside the try block is also caught and retried);
exhausted attempts → `TokenRefreshError`. -/
def refreshLoop (key ivA ivR : List Nat) (responses : Nat → RefreshResponse)
    (v : VaultState) (now : Nat) :
    Nat → Nat → Except CoreError String × VaultState × Nat
  | 0, _ => (.error .tokenRefreshError, v, 0)
  | fuel + 1, attempt =>
    match responses attempt with
    | .ok tok =>
      match encryptToken key ivA tok.access_token with
      | .error _ =>
        let (r, v', n) := refreshLoop key ivA ivR responses v now fuel (attempt + 1)
        (r, v', n + 1)
      | .ok encA =>
        match (match tok.refresh_token with
               | some rt => (encryptToken key ivR rt).map some
               | none => .ok none : Except CoreError (Option EncryptionResult)) with
        | .error _ =>
          let (r, v', n) := refreshLoop key ivA ivR responses v now fuel (attempt + 1)
          (r, v', n + 1)
        | .ok encR =>
          let expiresAt := now + (tok.expires_in.getD DEFAULT_EXPIRES_IN_SECONDS) * 1000
          let v1 := updateTokensAfterRefresh v now ⟨encA, encR, expiresAt⟩
          (.ok tok.access_token, { v1 with cache := none }, 1)
    | .badRequest errorCode =>
      if errorCode = some "invalid_grant" then
        let v1 := disconnectUser v now
        (.error .reconnectionRequired, { v1 with cache := none }, 1)
      else (.error .tokenRefreshError, v, 1)
    | .rateLimited _ =>
      let (r, v', n) := refreshLoop key ivA ivR responses v now fuel (attempt + 1)
      (r, v', n + 1)
    | .httpError _ => (.error .tokenRefreshError, v, 1)
    | .network =>
      let (r, v', n) := refreshLoop key ivA ivR responses v now fuel (attempt + 1)
      (r, v', n + 1)

/-- The body of the `try` block of `refreshAccessToken`: load the
Connection, disconnect-and-fail when no refresh token is stored,
decrypt the refresh token and run the retry loop. -/
def refreshCritical (key ivA ivR : List Nat) (responses : Nat → RefreshResponse)
    (vL : VaultState) (now : Nat) : Except CoreError String × VaultState × Nat :=
  match vL.conn with
  | none => (.error .noConnection, vL, 0)
  | some c =>
    match c.encrypted_refresh_token, c.refresh_token_iv with
    | some ct, some iv =>
      match decryptToken key ct iv with
      | .error e => (.error e, vL, 0)
      | .ok _refreshToken =>
        refreshLoop key ivA ivR responses vL now TOKEN_REFRESH_MAX_RETRIES 0
    | _, _ => (.error .reconnectionRequired, disconnectUser vL now, 0)

/-- `refreshAccessToken(userId)`: try to take the redis lock
(`SET … NX`); if it is held, fall back to `waitForRefresh`; otherwise
run `refreshCritical`; the `finally` releases the lock only when still
owned. -/
def refreshAccessToken (key ivA ivR : List Nat) (lockValue : String)
    (responses : Nat → RefreshResponse) (waitObs : Nat → Option Conn)
    (v : VaultState) (now : Nat) : TokenOutcome :=
  if v.lock.isSome then
    { result := waitForRefresh key waitObs now, state := v, endpointCalls := 0 }
  else
    let vL := { v with lock := some lockValue }
    let step := refreshCritical key ivA ivR responses vL now
    let vF := if step.2.1.lock = some lockValue then { step.2.1 with lock := none }
              else step.2.1
    { result := step.1, state := vF, endpointCalls := step.2.2 }

/-- `getValidAccessToken(userId)`: cached token, else load the row
(`NoConnectionError` / `ReconnectionRequired`), else — inside the
5-minute buffer — delegate to refresh, else decrypt, cache with
TTL `max 1 ⌊(expires_at − now − 60 s)/1000⌋`, best-effort touch
`last_used_at` (`touchOk` says whether that write succeeded; its
failure is swallowed), and return the token. -/
def getValidAccessToken (key ivA ivR : List Nat) (lockValue : String)
    (responses : Nat → RefreshResponse) (waitObs : Nat → Option Conn)
    (touchOk : Bool) (v : VaultState) (now : Nat) : TokenOutcome :=
  match v.cache with
  | some (cached, _) => { result := .ok cached, state := v, endpointCalls := 0 }
  | none =>
    match v.conn with
    | none => { result := .error .noConnection, state := v, endpointCalls := 0 }
    | some c =>
      if c.status = .disconnected then
        { result := .error .reconnectionRequired, state := v, endpointCalls := 0 }
      else
        match c.encrypted_access_token, c.access_token_iv with
        | some ct, some iv =>
          if c.expires_at > now + TOKEN_REFRESH_BUFFER_MS then
            match decryptToken key ct iv with
            | .error e => { result := .error e, state := v, endpointCalls := 0 }
            | .ok accessToken =>
              let cacheTTLSeconds := max 1 ((c.expires_at - now - 60000) / 1000)
              let v1 := { v with cache := some (accessToken, cacheTTLSeconds) }
              let v2 := if touchOk then touchLastUsed v1 now else v1
              { result := .ok accessToken, state := v2, endpointCalls := 0 }
          else refreshAccessToken key ivA ivR lockValue responses waitObs v now
        | _, _ =>
          { result := .error .reconnectionRequired, state := v, endpointCalls := 0 }

/-- `disconnect(userId)` of `token.service.ts`: `disconnectUser` plus
deleting the cached plaintext token. -/
def disconnect (v : VaultState) (now : Nat) : VaultState :=
  let v1 := disconnectUser v now
  { v1 with cache := none }

/-! ## `callback.service.ts` — `handleCallback` -/

/-- The combined per-user persistent state: the `oauth_states` table and
the vault state. -/
structure SysState where
  states : List StateRow
  vault : VaultState
  deriving Repr

/-- `handleCallback(code, state, sessionUserId)`: validate the state,
exchange the code (the network exchange is the `exchange` oracle,
called with the code and the decrypted verifier), store the tokens,
then `DELETE FROM oauth_states WHERE user_id = $1 AND consumed = TRUE`. -/
def handleCallback (key ivA ivR : List Nat)
    (exchange : String → String → Except CoreError TokenResponse)
    (sys : SysState) (code state sessionUserId : String) (now : Nat) :
    Except CoreError (Bool × Option String) × SysState :=
  match validateCallbackState key sys.states state sessionUserId now with
  | (.error e, db') => (.error e, { sys with states := db' })
  | (.ok validation, db') =>
    match exchange code validation.verifier with
    | .error e => (.error e, { sys with states := db' })
    | .ok tokenData =>
      match storeTokens key ivA ivR sys.vault now tokenData with
      | .error e => (.error e, { sys with states := db' })
      | .ok v' =>
        let db'' := db'.filter (fun r => !(r.user_id = validation.userId && r.consumed))
        (.ok (true, tokenData.workspace_name), { states := db'', vault := v' })

/-! ## `discovery.service.ts` — metadata discovery with static fallback -/

/-- Outcome of one `fetch` as the discoverer sees it. -/
inductive FetchResult (α : Type) where
  | ok (body : α)
  | httpError (status : Nat)
  | network
  deriving Repr

/-- `ProtectedResourceMetadata` (RFC 9470) — the field the code reads. -/
structure ProtectedResourceMetadata where
  authorization_servers : List String
  deriving DecidableEq, Repr

/-- `AuthorizationServerMetadata` (RFC 8414); the fields the code
validates are optional at runtime (`none` = missing in the JSON). -/
structure AuthorizationServerMetadata where
  issuer : String
  authorization_endpoint : Option String
  token_endpoint : Option String
  code_challenge_methods_supported : Option (List String)
  deriving DecidableEq, Repr

/-- The statically known Notion endpoints the discoverer falls back to. -/
def notionFallbackMetadata : AuthorizationServerMetadata :=
  { issuer := "https://api.notion.com"
    authorization_endpoint := some "https://api.notion.com/v1/oauth/authorize"
    token_endpoint := some "https://api.notion.com/v1/oauth/token"
    code_challenge_methods_supported := some ["S256"] }

/-- `fetchAuthorizationServerMetadata`: returns `none` (never throws)
on network failure, non-2xx, missing endpoints, or no S256 support. -/
def fetchAuthorizationServerMetadata
    (asResp : FetchResult AuthorizationServerMetadata) :
    Option AuthorizationServerMetadata :=
  match asResp with
  | .ok m =>
    if m.authorization_endpoint.isSome ∧ m.token_endpoint.isSome ∧
        (m.code_challenge_methods_supported.getD []).contains "S256" then some m
    else none
  | .httpError _ => none
  | .network => none

/-- `discoverOAuthMetadata` of
`src/apps/server/src/modules/oauth/discovery.service.ts` (the module
the oauth and token services import), cache miss path: try RFC 9470 →
RFC 8414 discovery and fall back to the hardcoded Notion endpoints on
any failure or incomplete metadata.  The two fetches are oracles. -/
def discoverOAuthMetadata
    (resourceResp : FetchResult ProtectedResourceMetadata)
    (asResp : FetchResult AuthorizationServerMetadata) :
    AuthorizationServerMetadata :=
  match resourceResp with
  | .ok rm =>
    match rm.authorization_servers with
    | [] => notionFallbackMetadata
    | _ :: _ =>
      match fetchAuthorizationServerMetadata asResp with
      | some m => m
      | none => notionFallbackMetadata
  | .httpError _ => notionFallbackMetadata
  | .network => notionFallbackMetadata

/-! ## `mcp-request.handler.ts` — the upstream request orchestrator -/

/-- `OPERATION_MAP[operation] || operation`. -/
def OPERATION_MAP (op : String) : String :=
  if op = "list_pages" then "search_pages"
  else if op = "list_databases" then "search_databases"
  else if op = "search_pages" then "search_pages"
  else if op = "search_databases" then "search_databases"
  else if op = "notion_search" then "search"
  else if op = "notion_get_page" then "get_page"
  else if op = "notion_get_database" then "get_database"
  else if op = "notion_query_database" then "query_database"
  else if op = "notion_get_user" then "get_user"
  else if op = "notion_list_users" then "list_users"
  else op

/-- Does `s` start with `pat`? -/
def matchesAt : List Char → List Char → Bool
  | [], _ => true
  | _ :: _, [] => false
  | a :: as, b :: bs => a = b && matchesAt as bs

/-- Does `s` contain `pat` as a contiguous substring? -/
def hasSub (pat : List Char) : List Char → Bool
  | [] => matchesAt pat []
  | b :: bs => matchesAt pat (b :: bs) || hasSub pat bs

/-- `String.includes` of JavaScript. -/
def strIncludes (s pat : String) : Bool := hasSub pat.data s.data

/-- An error thrown by the Notion API layer, as the orchestrator
inspects it: an optional HTTP status and the message. -/
structure UpstreamError where
  status : Option Nat
  message : String
  deriving DecidableEq, Repr

/-- `isAuthError(err)`: `status === 401 || message.includes("authentication")`. -/
def isAuthError (e : UpstreamError) : Bool :=
  e.status = some 401 || strIncludes e.message "authentication"

/-- Errors surfaced by `executeNotionOperation`: a vault error or an
upstream operation error. -/
inductive ExecError where
  | vault (e : CoreError)
  | operation (e : UpstreamError)
  deriving DecidableEq, Repr

/-- Outcome of the orchestrator: result, final per-user state, and the
number of upstream operation invocations made. -/
structure ExecOutcome (α : Type) where
  result : Except ExecError α
  state : VaultState
  upstreamCalls : Nat

/-- `executeNotionOperation(userId, operation, params)`: resolve a
token, map the operation name, invoke the upstream call (the
`executeOperation` dispatch into `notion-api.service.ts` is the `up`
oracle, given the token, the mapped name and the invocation index);
on an auth failure refresh once and repeat the call once; any second
failure is surfaced.  Successful calls fire-and-forget
`touchLastUsed`. -/
def executeNotionOperation {α : Type} (key ivA ivR : List Nat) (lockValue : String)
    (responses : Nat → RefreshResponse) (waitObs : Nat → Option Conn)
    (touchOk : Bool) (v : VaultState) (now : Nat) (operation : String)
    (up : String → String → Nat → Except UpstreamError α) : ExecOutcome α :=
  let t := getValidAccessToken key ivA ivR lockValue responses waitObs touchOk v now
  match t.result with
  | .error e => { result := .error (.vault e), state := t.state, upstreamCalls := 0 }
  | .ok accessToken =>
    let mappedOperation := OPERATION_MAP operation
    match up accessToken mappedOperation 0 with
    | .ok r =>
      let s1 := if touchOk then touchLastUsed t.state now else t.state
      { result := .ok r, state := s1, upstreamCalls := 1 }
    | .error e =>
      if isAuthError e then
        let rf := refreshAccessToken key ivA ivR lockValue responses waitObs t.state now
        match rf.result with
        | .error re => { result := .error (.vault re), state := rf.state, upstreamCalls := 1 }
        | .ok newToken =>
          match up newToken mappedOperation 1 with
          | .ok r =>
            let s1 := if touchOk then touchLastUsed rf.state now else rf.state
            { result := .ok r, state := s1, upstreamCalls := 2 }
          | .error e2 =>
            { result := .error (.operation e2), state := rf.state, upstreamCalls := 2 }
      else { result := .error (.operation e), state := t.state, upstreamCalls := 1 }

/-! ## Theorems -/

/-- C5: for every plaintext P and valid 32-byte key K,
`decryptAES256GCM(encryptAES256GCM(P, K), K) = P`; decrypting with a
different valid key fails; any buffer whose appended authentication tag
does not authenticate exactly (K, iv, data) — i.e. any tamper of the
data bytes or the tag — fails with an error; and whenever decryption
does return a string, the buffer is untouched and the string is the
full plaintext, never a partial one. -/
theorem C5_secret_codec_roundtrip (P : String) (K iv : List Nat) (hK : K.length = 32) :
    ((encryptAES256GCM P K iv).bind
        (fun r => decryptAES256GCM r.ciphertext r.iv K) = .ok P) ∧
    (∀ K', K'.length = 32 → K' ≠ K →
      (encryptAES256GCM P K iv).bind
        (fun r => decryptAES256GCM r.ciphertext r.iv K') = .error .decryptionFailed) ∧
    (∀ blob : CipherBlob, blob.tag ≠ ⟨K, iv, blob.data⟩ →
      decryptAES256GCM blob iv K = .error .decryptionFailed) ∧
    (∀ blob s, decryptAES256GCM blob iv K = .ok s →
      blob.tag = ⟨K, iv, blob.data⟩ ∧ s = bytesToStr (gcmXor K iv blob.data)) := by
  refine ⟨?_, ?_, ?_, ?_⟩
  · simp [encryptAES256GCM, decryptAES256GCM, Except.bind, hK, gcmXor_gcmXor,
      bytesToStr_strToBytes]
  · intro K' hK' hne
    simp only [encryptAES256GCM, hK, if_neg]
    simp only [decryptAES256GCM, hK', Except.bind]
    have htag : (AuthTag.mk K iv (gcmXor K iv (strToBytes P))) ≠
        ⟨K', iv, gcmXor K iv (strToBytes P)⟩ := by
      intro h
      exact hne (by cases h; rfl)
    simp [htag]
  · intro blob htag
    simp [decryptAES256GCM, hK, htag]
  · intro blob s h
    by_cases htag : blob.tag = ⟨K, iv, blob.data⟩
    · refine ⟨htag, ?_⟩
      simp only [decryptAES256GCM, hK, htag, if_true] at h
      simp at h
      exact h.symm
    · simp [decryptAES256GCM, hK, htag] at h

/-- C5 witness: concrete 32-byte keys, iv and plaintext exercising the
round-trip, the wrong-key failure and a tampered-tag failure. -/
theorem C5_secret_codec_roundtrip_witness :
    ((encryptAES256GCM "ab" (List.replicate 32 0) [7]).bind
        (fun r => decryptAES256GCM r.ciphertext r.iv (List.replicate 32 0)) = .ok "ab") ∧
    ((encryptAES256GCM "ab" (List.replicate 32 0) [7]).bind
        (fun r => decryptAES256GCM r.ciphertext r.iv (1 :: List.replicate 31 0)) =
      .error .decryptionFailed) ∧
    (decryptAES256GCM ⟨[0], ⟨[], [], []⟩⟩ [7] (List.replicate 32 0) =
      .error .decryptionFailed) :=
  ⟨(C5_secret_codec_roundtrip "ab" (List.replicate 32 0) [7] (by decide)).1,
   (C5_secret_codec_roundtrip "ab" (List.replicate 32 0) [7] (by decide)).2.1
      (1 :: List.replicate 31 0) (by decide) (by decide),
   (C5_secret_codec_roundtrip "ab" (List.replicate 32 0) [7] (by decide)).2.2.1
      ⟨[0], ⟨[], [], []⟩⟩ (by decide)⟩

/-- C9: calling `disconnect` twice in a row yields the same observable
Connection state as calling it once — token fields null, status
disconnected, cache empty — the second call raises no error (the model
of `disconnect` is total), and at equal timestamps the states are
literally identical. -/
theorem C9_disconnect_idempotent (v : VaultState) (n1 n2 : Nat) :
    ((disconnect (disconnect v n1) n2).conn.map (fun c =>
        (c.encrypted_access_token, c.access_token_iv,
         c.encrypted_refresh_token, c.refresh_token_iv, c.status)) =
      (disconnect v n1).conn.map (fun c =>
        (c.encrypted_access_token, c.access_token_iv,
         c.encrypted_refresh_token, c.refresh_token_iv, c.status))) ∧
    (disconnect (disconnect v n1) n2).cache = (disconnect v n1).cache ∧
    (∀ c, (disconnect v n1).conn = some c →
      c.status = .disconnected ∧ c.encrypted_access_token = none ∧
      c.access_token_iv = none ∧ c.encrypted_refresh_token = none ∧
      c.refresh_token_iv = none) ∧
    disconnect (disconnect v n1) n1 = disconnect v n1 := by
  cases v with
  | mk conn cache lock =>
    cases conn with
    | none => simp [disconnect, disconnectUser]
    | some c =>
      refine ⟨by simp [disconnect, disconnectUser], by simp [disconnect, disconnectUser], ?_, ?_⟩
      · intro c' h
        simp [disconnect, disconnectUser] at h
        subst h
        simp
      · simp [disconnect, disconnectUser]

/-- C9 witness: the idempotence facts at a concrete connected state. -/
theorem C9_disconnect_idempotent_witness :
    ∃ c, (disconnect (VaultState.mk
        (some { encrypted_access_token := none, access_token_iv := none,
                encrypted_refresh_token := none, refresh_token_iv := none,
                expires_at := 10, scope := none, workspace_id := none,
                workspace_name := none, status := .active, refresh_count := 0,
                last_used_at := none, refreshed_at := none, disconnected_at := none,
                created_at := 0, updated_at := 0 })
        (some ("t", 3)) none) 5).conn = some c ∧
      c.status = .disconnected ∧ c.encrypted_access_token = none ∧
      c.access_token_iv = none ∧ c.encrypted_refresh_token = none ∧
      c.refresh_token_iv = none := by
  refine ⟨_, rfl, ?_⟩
  exact (C9_disconnect_idempotent (VaultState.mk
    (some { encrypted_access_token := none, access_token_iv := none,
            encrypted_refresh_token := none, refresh_token_iv := none,
            expires_at := 10, scope := none, workspace_id := none,
            workspace_name := none, status := .active, refresh_count := 0,
            last_used_at := none, refreshed_at := none, disconnected_at := none,
            created_at := 0, updated_at := 0 })
    (some ("t", 3)) none) 5 6).2.2.1 _ rfl

/-- C1: `validate(receivedState, sessionUserId)` fails with
UnknownState when no row with that state value exists, ReplayDetected
when the row is consumed, StateExpired (deleting the row) when past
`expires_at`, StateOwnershipMismatch when the row's user differs from
the session user; on the success path the row is marked consumed in
storage (whether or not verifier decryption then succeeds, i.e. before
the verifier is returned), the decrypted verifier is returned, and a
second validate of the same state fails with ReplayDetected. -/
theorem C1_validate_callback_state (key : List Nat) (db : List StateRow)
    (received sess : String) (now : Nat) :
    (db.find? (fun q => q.state_value = received) = none →
      validateCallbackState key db received sess now = (.error .oauthUnknownState, db)) ∧
    (∀ r, db.find? (fun q => q.state_value = received) = some r →
      (r.consumed = true →
        validateCallbackState key db received sess now = (.error .oauthReplayDetected, db)) ∧
      (r.consumed = false → r.expires_at < now →
        validateCallbackState key db received sess now =
          (.error .oauthStateExpired, db.filter (fun q => q.id ≠ r.id))) ∧
      (r.consumed = false → ¬ r.expires_at < now → r.user_id ≠ sess →
        validateCallbackState key db received sess now =
          (.error .oauthOwnershipMismatch, db)) ∧
      (r.consumed = false → ¬ r.expires_at < now → r.user_id = sess →
        (validateCallbackState key db received sess now).2 =
            db.map (fun q => if q.id = r.id then { q with consumed := true } else q) ∧
        (∀ verifier,
          decryptAES256GCM r.encrypted_pkce_verifier r.pkce_verifier_iv key = .ok verifier →
          (validateCallbackState key db received sess now).1 =
            .ok ⟨true, verifier, r.user_id⟩) ∧
        (validateCallbackState key
            (validateCallbackState key db received sess now).2 received sess now).1 =
          .error .oauthReplayDetected)) := by
  constructor
  · intro h
    simp [validateCallbackState, h]
  · intro r hfind
    refine ⟨?_, ?_, ?_, ?_⟩
    · intro hc
      simp [validateCallbackState, hfind, hc]
    · intro hc hexp
      simp [validateCallbackState, hfind, hc, hexp]
    · intro hc hexp huser
      simp [validateCallbackState, hfind, hc, hexp, huser]
    · intro hc hexp huser
      have hval : validateCallbackState key db received sess now =
          (match decryptAES256GCM r.encrypted_pkce_verifier r.pkce_verifier_iv key with
           | .error e => (.error e,
               db.map (fun q => if q.id = r.id then { q with consumed := true } else q))
           | .ok verifier => (.ok ⟨true, verifier, r.user_id⟩,
               db.map (fun q => if q.id = r.id then { q with consumed := true } else q))) := by
        simp [validateCallbackState, hfind, hc, hexp, huser]
      have hsnd : (validateCallbackState key db received sess now).2 =
          db.map (fun q => if q.id = r.id then { q with consumed := true } else q) := by
        rw [hval]
        cases decryptAES256GCM r.encrypted_pkce_verifier r.pkce_verifier_iv key <;> rfl
      refine ⟨hsnd, ?_, ?_⟩
      · intro verifier hdec
        rw [hval, hdec]
      · rw [hsnd]
        have hfind' :
            (db.map (fun q => if q.id = r.id then { q with consumed := true } else q)).find?
              (fun q => q.state_value = received) = some { r with consumed := true } := by
          rw [List.find?_map]
          have hpf : ((fun q : StateRow => decide (q.state_value = received)) ∘
              (fun q => if q.id = r.id then { q with consumed := true } else q)) =
              (fun q : StateRow => decide (q.state_value = received)) := by
            funext q
            by_cases hq : q.id = r.id <;> simp [hq]
          rw [hpf, hfind]
          simp
        simp [validateCallbackState, hfind']

/-- C1 witness: a one-row table where the row is already consumed, so
validation fails with ReplayDetected. -/
theorem C1_validate_callback_state_witness :
    validateCallbackState [] [⟨1, "s", "u", ⟨[], ⟨[], [], []⟩⟩, [], 100, true⟩] "s" "u" 0 =
      (.error .oauthReplayDetected,
       [⟨1, "s", "u", ⟨[], ⟨[], [], []⟩⟩, [], 100, true⟩]) :=
  ((C1_validate_callback_state [] [⟨1, "s", "u", ⟨[], ⟨[], [], []⟩⟩, [], 100, true⟩]
      "s" "u" 0).2 ⟨1, "s", "u", ⟨[], ⟨[], [], []⟩⟩, [], 100, true⟩ (by decide)).1 rfl

/-- C2: `getValidAccessToken` follows exactly the claimed algorithm:
(1) a cached plaintext token is returned as is; (2) with no cache, a
missing Connection fails with NoConnectionError, a disconnected row or
null access-token fields fail with ReconnectionRequired; (3) when
`expires_at` is more than the 5-minute buffer in the future the access
token is decrypted and returned, the cache is populated with TTL
`max 1 ⌊(expires_at − now − 60000)/1000⌋` seconds, and `last_used_at`
is touched best-effort — the same token is returned whether or not the
touch write succeeds; no token-endpoint call is made in cases (1)–(3);
(4) otherwise the call is exactly `refreshAccessToken`. -/
theorem C2_get_valid_access_token (key ivA ivR : List Nat) (lockValue : String)
    (responses : Nat → RefreshResponse) (waitObs : Nat → Option Conn)
    (touchOk : Bool) (v : VaultState) (now : Nat) :
    (∀ tok ttl, v.cache = some (tok, ttl) →
      getValidAccessToken key ivA ivR lockValue responses waitObs touchOk v now =
        { result := .ok tok, state := v, endpointCalls := 0 }) ∧
    (v.cache = none → v.conn = none →
      getValidAccessToken key ivA ivR lockValue responses waitObs touchOk v now =
        { result := .error .noConnection, state := v, endpointCalls := 0 }) ∧
    (∀ c, v.cache = none → v.conn = some c → c.status = .disconnected →
      getValidAccessToken key ivA ivR lockValue responses waitObs touchOk v now =
        { result := .error .reconnectionRequired, state := v, endpointCalls := 0 }) ∧
    (∀ c, v.cache = none → v.conn = some c → c.status ≠ .disconnected →
      (c.encrypted_access_token = none ∨ c.access_token_iv = none) →
      getValidAccessToken key ivA ivR lockValue responses waitObs touchOk v now =
        { result := .error .reconnectionRequired, state := v, endpointCalls := 0 }) ∧
    (∀ c ct iv tok, v.cache = none → v.conn = some c → c.status ≠ .disconnected →
      c.encrypted_access_token = some ct → c.access_token_iv = some iv →
      c.expires_at > now + TOKEN_REFRESH_BUFFER_MS →
      decryptToken key ct iv = .ok tok →
      getValidAccessToken key ivA ivR lockValue responses waitObs touchOk v now =
        { result := .ok tok
          state := (if touchOk then touchLastUsed { v with cache := some (tok, max 1 ((c.expires_at - now - 60000) / 1000)) } now else { v with cache := some (tok, max 1 ((c.expires_at - now - 60000) / 1000)) })
          endpointCalls := 0 }) ∧
    (∀ c ct iv, v.cache = none → v.conn = some c → c.status ≠ .disconnected →
      c.encrypted_access_token = some ct → c.access_token_iv = some iv →
      ¬ c.expires_at > now + TOKEN_REFRESH_BUFFER_MS →
      getValidAccessToken key ivA ivR lockValue responses waitObs touchOk v now =
        refreshAccessToken key ivA ivR lockValue responses waitObs v now) := by
  refine ⟨?_, ?_, ?_, ?_, ?_, ?_⟩
  · intro tok ttl hc
    simp [getValidAccessToken, hc]
  · intro hc hn
    simp [getValidAccessToken, hc, hn]
  · intro c hc hn hd
    simp [getValidAccessToken, hc, hn, hd]
  · intro c hc hn hd hfields
    rcases hfields with h | h <;>
      · cases hat : c.encrypted_access_token <;> cases hiv : c.access_token_iv <;>
          simp_all [getValidAccessToken, hc, hn, hd]
  · intro c ct iv tok hc hn hd hat hiv hexp hdec
    simp [getValidAccessToken, hc, hn, hd, hat, hiv, hexp, hdec]
  · intro c ct iv hc hn hd hat hiv hexp
    simp [getValidAccessToken, hc, hn, hd, hat, hiv, hexp]

/-- C2 witness: a cache hit returns the cached token without touching
the row or the network. -/
theorem C2_get_valid_access_token_witness :
    getValidAccessToken [] [] [] "L" (fun _ => .network) (fun _ => none) true
        (VaultState.mk none (some ("cached", 9)) none) 0 =
      { result := .ok "cached", state := VaultState.mk none (some ("cached", 9)) none,
        endpointCalls := 0 } :=
  (C2_get_valid_access_token [] [] [] "L" (fun _ => .network) (fun _ => none) true
    (VaultState.mk none (some ("cached", 9)) none) 0).1 "cached" 9 rfl

/-- C3: when the token endpoint answers the first refresh attempt with
a 400 `invalid_grant`, `refreshAccessToken` leaves the Connection
disconnected with all four token fields null, clears the cached
plaintext token, fails with ReconnectionRequired after exactly one
token-endpoint call (no retries), and a subsequent
`getValidAccessToken` at any later time fails with
ReconnectionRequired making zero token-endpoint calls (the function
performs no other network call). -/
theorem C3_invalid_grant_revocation (key ivA ivR : List Nat) (lockValue : String)
    (responses : Nat → RefreshResponse) (waitObs : Nat → Option Conn)
    (v : VaultState) (now : Nat) (c : Conn) (ct : CipherBlob) (iv : List Nat) (rt : String)
    (hlock : v.lock = none) (hconn : v.conn = some c)
    (hrt : c.encrypted_refresh_token = some ct) (hriv : c.refresh_token_iv = some iv)
    (hdec : decryptToken key ct iv = .ok rt)
    (hresp : responses 0 = .badRequest (some "invalid_grant")) :
    (refreshAccessToken key ivA ivR lockValue responses waitObs v now).result =
        .error .reconnectionRequired ∧
    (refreshAccessToken key ivA ivR lockValue responses waitObs v now).endpointCalls = 1 ∧
    (refreshAccessToken key ivA ivR lockValue responses waitObs v now).state.cache = none ∧
    (∃ c', (refreshAccessToken key ivA ivR lockValue responses waitObs v now).state.conn =
        some c' ∧
      c'.status = .disconnected ∧ c'.encrypted_access_token = none ∧
      c'.access_token_iv = none ∧ c'.encrypted_refresh_token = none ∧
      c'.refresh_token_iv = none) ∧
    (∀ touchOk now',
      getValidAccessToken key ivA ivR lockValue responses waitObs touchOk
          (refreshAccessToken key ivA ivR lockValue responses waitObs v now).state now' =
        { result := .error .reconnectionRequired
          state := (refreshAccessToken key ivA ivR lockValue responses waitObs v now).state
          endpointCalls := 0 }) := by
  have hrun : refreshAccessToken key ivA ivR lockValue responses waitObs v now =
      { result := .error .reconnectionRequired
        state := { disconnectUser { v with lock := some lockValue } now with
                    cache := none, lock := none }
        endpointCalls := 1 } := by
    simp [refreshAccessToken, refreshCritical, hlock, hconn, hrt, hriv, hdec, refreshLoop,
      hresp, TOKEN_REFRESH_MAX_RETRIES, disconnectUser]
  rw [hrun]
  refine ⟨rfl, rfl, rfl, ?_, ?_⟩
  · refine ⟨{ c with status := .disconnected, encrypted_access_token := none, access_token_iv := none, encrypted_refresh_token := none, refresh_token_iv := none, disconnected_at := some now, updated_at := now }, ?_, rfl, rfl, rfl, rfl, rfl⟩
    simp [disconnectUser, hconn]
  · intro touchOk now'
    simp [getValidAccessToken, disconnectUser, hconn]

/-- C3 witness: a concrete connected state revoked by the provider. -/
theorem C3_invalid_grant_revocation_witness :
    (refreshAccessToken (List.replicate 32 0) [] [] "L"
        (fun _ => .badRequest (some "invalid_grant")) (fun _ => none)
        (VaultState.mk (some
          { encrypted_access_token := none, access_token_iv := none
            encrypted_refresh_token := some ⟨[], ⟨List.replicate 32 0, [5], []⟩⟩
            refresh_token_iv := some [5]
            expires_at := 0, scope := none, workspace_id := none, workspace_name := none
            status := .active, refresh_count := 0, last_used_at := none
            refreshed_at := none, disconnected_at := none, created_at := 0, updated_at := 0 })
          none none) 0).result = .error .reconnectionRequired ∧
    (refreshAccessToken (List.replicate 32 0) [] [] "L"
        (fun _ => .badRequest (some "invalid_grant")) (fun _ => none)
        (VaultState.mk (some
          { encrypted_access_token := none, access_token_iv := none
            encrypted_refresh_token := some ⟨[], ⟨List.replicate 32 0, [5], []⟩⟩
            refresh_token_iv := some [5]
            expires_at := 0, scope := none, workspace_id := none, workspace_name := none
            status := .active, refresh_count := 0, last_used_at := none
            refreshed_at := none, disconnected_at := none, created_at := 0, updated_at := 0 })
          none none) 0).endpointCalls = 1 := by
  have h := C3_invalid_grant_revocation (List.replicate 32 0) [] [] "L"
    (fun _ => .badRequest (some "invalid_grant")) (fun _ => none)
    (VaultState.mk (some
      { encrypted_access_token := none, access_token_iv := none
        encrypted_refresh_token := some ⟨[], ⟨List.replicate 32 0, [5], []⟩⟩
        refresh_token_iv := some [5]
        expires_at := 0, scope := none, workspace_id := none, workspace_name := none
        status := .active, refresh_count := 0, last_used_at := none
        refreshed_at := none, disconnected_at := none, created_at := 0, updated_at := 0 })
      none none) 0
    { encrypted_access_token := none, access_token_iv := none
      encrypted_refresh_token := some ⟨[], ⟨List.replicate 32 0, [5], []⟩⟩
      refresh_token_iv := some [5]
      expires_at := 0, scope := none, workspace_id := none, workspace_name := none
      status := .active, refresh_count := 0, last_used_at := none
      refreshed_at := none, disconnected_at := none, created_at := 0, updated_at := 0 }
    ⟨[], ⟨List.replicate 32 0, [5], []⟩⟩ [5] ""
    rfl rfl rfl rfl (by simp [decryptToken, decryptAES256GCM, gcmXor, bytesToStr]) rfl
  exact ⟨h.1, h.2.1⟩

/-- The Connection invariant of the spec: a disconnected row has all
four token fields null. -/
def connTokenInv (c : Conn) : Prop :=
  c.status = .disconnected →
    c.encrypted_access_token = none ∧ c.access_token_iv = none ∧
    c.encrypted_refresh_token = none ∧ c.refresh_token_iv = none

/-- The invariant lifted to the per-user state. -/
def vaultInv (v : VaultState) : Prop := ∀ c, v.conn = some c → connTokenInv c

theorem vaultInv_cache_lock (v : VaultState) (cache : Option (String × Nat))
    (lock : Option String) (h : vaultInv v) :
    vaultInv { v with cache := cache, lock := lock } := by
  intro c hc
  exact h c hc

theorem disconnectUser_inv (v : VaultState) (now : Nat) :
    vaultInv (disconnectUser v now) := by
  intro c hc
  simp only [disconnectUser] at hc
  cases hv : v.conn with
  | none => rw [hv] at hc; simp at hc
  | some c0 =>
    rw [hv] at hc
    simp at hc
    intro _
    rw [← hc]
    exact ⟨rfl, rfl, rfl, rfl⟩

theorem updateTokens_inv (v : VaultState) (now : Nat) (p : RefreshUpdateParams)
    (hstat : ∀ c, v.conn = some c → c.status ≠ .disconnected) :
    vaultInv (updateTokensAfterRefresh v now p) := by
  intro c hc
  simp only [updateTokensAfterRefresh] at hc
  cases hv : v.conn with
  | none => rw [hv] at hc; simp at hc
  | some c0 =>
    rw [hv] at hc
    simp at hc
    intro hd
    rw [← hc] at hd
    exact absurd hd (hstat c0 hv)

theorem refreshLoop_inv (key ivA ivR : List Nat) (responses : Nat → RefreshResponse)
    (v : VaultState) (now : Nat)
    (hstat : ∀ c, v.conn = some c → c.status ≠ .disconnected) :
    ∀ fuel attempt,
      vaultInv (refreshLoop key ivA ivR responses v now fuel attempt).2.1 := by
  have hbase : vaultInv v := fun c hc hd => absurd hd (hstat c hc)
  intro fuel
  induction fuel with
  | zero => intro attempt; exact hbase
  | succ n ih =>
    intro attempt
    cases hresp : responses attempt with
    | ok tok =>
      cases hA : encryptToken key ivA tok.access_token with
      | error e =>
        simp only [refreshLoop, hresp, hA]
        exact ih (attempt + 1)
      | ok encA =>
        cases hR : (match tok.refresh_token with
            | some rt => (encryptToken key ivR rt).map some
            | none => .ok none : Except CoreError (Option EncryptionResult)) with
        | error e =>
          simp only [refreshLoop, hresp, hA, hR]
          exact ih (attempt + 1)
        | ok encR =>
          simp only [refreshLoop, hresp, hA, hR]
          intro c hc
          exact updateTokens_inv v now _ hstat c hc
    | badRequest errorCode =>
      by_cases hec : errorCode = some "invalid_grant"
      · simp [refreshLoop, hresp, hec]
        intro c hc
        exact disconnectUser_inv v now c hc
      · simp only [refreshLoop, hresp, if_neg hec]
        exact hbase
    | rateLimited r =>
      simp only [refreshLoop, hresp]
      exact ih (attempt + 1)
    | httpError s =>
      simp only [refreshLoop, hresp]
      exact hbase
    | network =>
      simp only [refreshLoop, hresp]
      exact ih (attempt + 1)

theorem upsertConnection_inv (v : VaultState) (now : Nat) (p : UpsertParams) :
    vaultInv (upsertConnection v now p) := by
  intro c hc
  simp only [upsertConnection, Option.some.injEq] at hc
  cases hv : v.conn <;> rw [hv] at hc <;>
    · intro hd
      rw [← hc] at hd
      simp at hd

theorem refreshCritical_inv (key ivA ivR : List Nat) (responses : Nat → RefreshResponse)
    (vL : VaultState) (now : Nat) (hinv : vaultInv vL) :
    vaultInv (refreshCritical key ivA ivR responses vL now).2.1 := by
  cases hv : vL.conn with
  | none =>
    simp only [refreshCritical, hv]
    exact hinv
  | some c0 =>
    cases hrt : c0.encrypted_refresh_token with
    | none =>
      cases hriv : c0.refresh_token_iv with
      | none =>
        simp only [refreshCritical, hv, hrt, hriv]
        exact disconnectUser_inv vL now
      | some iv =>
        simp only [refreshCritical, hv, hrt, hriv]
        exact disconnectUser_inv vL now
    | some ct =>
      cases hriv : c0.refresh_token_iv with
      | none =>
        simp only [refreshCritical, hv, hrt, hriv]
        exact disconnectUser_inv vL now
      | some iv =>
        cases hdec : decryptToken key ct iv with
        | error e =>
          simp only [refreshCritical, hv, hrt, hriv, hdec]
          exact hinv
        | ok rt =>
          simp only [refreshCritical, hv, hrt, hriv, hdec]
          apply refreshLoop_inv
          intro c hc hd
          rw [hv] at hc
          cases hc
          have hfields := hinv c0 hv hd
          rw [hfields.2.2.1] at hrt
          exact Option.noConfusion hrt

/-- C7: the invariant "status = disconnected → all four token fields
null" is preserved by every writer of the Connection row: the upsert on
callback (`upsertConnection`, and `storeTokens` which composes it),
the refresh update (`refreshAccessToken`, whose success path writes
`updateTokensAfterRefresh` only after finding a stored refresh token —
which under the invariant rules out a disconnected row), disconnect
(`disconnectUser`, unconditionally), and the best-effort
`touchLastUsed`. -/
theorem C7_disconnected_token_fields_null (v : VaultState) (now : Nat) :
    (∀ p, vaultInv (upsertConnection v now p)) ∧
    vaultInv (disconnectUser v now) ∧
    (∀ key ivA ivR tokenData v', storeTokens key ivA ivR v now tokenData = .ok v' →
      vaultInv v') ∧
    (vaultInv v → ∀ key ivA ivR lockValue responses waitObs,
      vaultInv (refreshAccessToken key ivA ivR lockValue responses waitObs v now).state) ∧
    (vaultInv v → vaultInv (touchLastUsed v now)) := by
  refine ⟨fun p => upsertConnection_inv v now p, disconnectUser_inv v now, ?_, ?_, ?_⟩
  · intro key ivA ivR tokenData v' h
    simp only [storeTokens] at h
    cases hA : encryptToken key ivA tokenData.access_token with
    | error e => rw [hA] at h; simp at h
    | ok encA =>
      rw [hA] at h
      cases hR : (match tokenData.refresh_token with
          | some rt => (encryptToken key ivR rt).map some
          | none => .ok none : Except CoreError (Option EncryptionResult)) with
      | error e => rw [hR] at h; simp at h
      | ok encR =>
        rw [hR] at h
        simp only [Except.ok.injEq] at h
        rw [← h]
        exact vaultInv_cache_lock _ _ _ (upsertConnection_inv v now _)
  · intro hinv key ivA ivR lockValue responses waitObs
    cases hL : v.lock with
    | some s =>
      simp only [refreshAccessToken, hL, Option.isSome_some, if_true]
      exact hinv
    | none =>
      have hvL : vaultInv { v with lock := some lockValue } := fun c hc => hinv c hc
      have hstep := refreshCritical_inv key ivA ivR responses
        { v with lock := some lockValue } now hvL
      simp only [refreshAccessToken, hL, Option.isSome_none, Bool.false_eq_true, if_false]
      split
      · intro c hc
        exact hstep c hc
      · intro c hc
        exact hstep c hc
  · intro hinv c hc
    simp only [touchLastUsed] at hc
    cases hv : v.conn with
    | none => rw [hv] at hc; simp at hc
    | some c0 =>
      rw [hv] at hc
      simp at hc
      intro hd
      rw [← hc] at hd
      have hf := hinv c0 hv hd
      rw [← hc]
      exact ⟨hf.1, hf.2.1, hf.2.2.1, hf.2.2.2⟩

/-- C7 witness: the invariant facts at a concrete state with no row
(the universally quantified invariant holds vacuously) and the refresh
preservation applied to it. -/
theorem C7_disconnected_token_fields_null_witness :
    vaultInv (disconnectUser (VaultState.mk none none none) 0) ∧
    vaultInv (refreshAccessToken (List.replicate 32 0) [] [] "L" (fun _ => .network)
        (fun _ => none) (VaultState.mk none none none) 0).state ∧
    vaultInv (touchLastUsed (VaultState.mk none none none) 0) :=
  ⟨(C7_disconnected_token_fields_null (VaultState.mk none none none) 0).2.1,
   (C7_disconnected_token_fields_null (VaultState.mk none none none) 0).2.2.2.1
      (fun c hc => absurd hc (by simp)) (List.replicate 32 0) [] [] "L"
      (fun _ => .network) (fun _ => none),
   (C7_disconnected_token_fields_null (VaultState.mk none none none) 0).2.2.2.2
      (fun c hc => absurd hc (by simp))⟩

/-- C4: on a 401/authentication failure of the upstream call,
`executeNotionOperation` refreshes once and repeats the call exactly
once; against an upstream that rejects every token with an
authentication error (and a refresh that succeeds) this makes exactly
two upstream invocations and surfaces the second authentication error;
and for every upstream whatsoever at most two upstream invocations are
ever made. -/
theorem C4_retry_once_bound {α : Type} (key ivA ivR : List Nat) (lockValue : String)
    (responses : Nat → RefreshResponse) (waitObs : Nat → Option Conn)
    (touchOk : Bool) (v : VaultState) (now : Nat) (operation : String)
    (up : String → String → Nat → Except UpstreamError α) (tok tok2 : String)
    (hget : (getValidAccessToken key ivA ivR lockValue responses waitObs touchOk v now).result
      = .ok tok)
    (hrefresh : (refreshAccessToken key ivA ivR lockValue responses waitObs
        (getValidAccessToken key ivA ivR lockValue responses waitObs touchOk v now).state
        now).result = .ok tok2)
    (h401 : ∀ t m i, ∃ e, up t m i = .error e ∧ isAuthError e = true) :
    ((executeNotionOperation key ivA ivR lockValue responses waitObs touchOk v now
        operation up).upstreamCalls = 2 ∧
     ∃ e, (executeNotionOperation key ivA ivR lockValue responses waitObs touchOk v now
        operation up).result = .error (.operation e) ∧ isAuthError e = true) ∧
    (∀ up' : String → String → Nat → Except UpstreamError α,
      (executeNotionOperation key ivA ivR lockValue responses waitObs touchOk v now
        operation up').upstreamCalls ≤ 2) := by
  constructor
  · obtain ⟨e1, he1, ha1⟩ := h401 tok (OPERATION_MAP operation) 0
    obtain ⟨e2, he2, ha2⟩ := h401 tok2 (OPERATION_MAP operation) 1
    have hrun : executeNotionOperation key ivA ivR lockValue responses waitObs touchOk v now
        operation up =
        { result := .error (.operation e2)
          state := (refreshAccessToken key ivA ivR lockValue responses waitObs
            (getValidAccessToken key ivA ivR lockValue responses waitObs touchOk v now).state
            now).state
          upstreamCalls := 2 } := by
      simp only [executeNotionOperation, hget, he1, ha1, if_true, hrefresh, he2]
    rw [hrun]
    exact ⟨rfl, e2, rfl, ha2⟩
  · intro up'
    simp only [executeNotionOperation]
    cases (getValidAccessToken key ivA ivR lockValue responses waitObs touchOk v now).result with
    | error e => simp
    | ok t =>
      simp only
      cases up' t (OPERATION_MAP operation) 0 with
      | ok r => simp
      | error e =>
        simp only
        by_cases hae : isAuthError e
        · simp only [hae, if_true]
          cases (refreshAccessToken key ivA ivR lockValue responses waitObs
              (getValidAccessToken key ivA ivR lockValue responses waitObs touchOk v
                now).state now).result with
          | error re => simp
          | ok nt =>
            simp only
            cases up' nt (OPERATION_MAP operation) 1 with
            | ok r => simp
            | error e2 => simp
        · simp [hae]

/-- C4 witness: a cached token, an upstream rejecting every call with
401, and a refresh that succeeds from a stored refresh token: exactly
two upstream invocations, then the authentication error surfaces. -/
theorem C4_retry_once_bound_witness :
    ((executeNotionOperation (List.replicate 32 0) [9] [] "L" (fun _ => .ok ⟨"new", none, some 60, none, none, none⟩)
        (fun _ => none) false
        (VaultState.mk (some
          { encrypted_access_token := none, access_token_iv := none
            encrypted_refresh_token := some ⟨[], ⟨List.replicate 32 0, [5], []⟩⟩
            refresh_token_iv := some [5]
            expires_at := 0, scope := none, workspace_id := none, workspace_name := none
            status := .active, refresh_count := 0, last_used_at := none
            refreshed_at := none, disconnected_at := none, created_at := 0, updated_at := 0 })
          (some ("cached", 7)) none) 0 "search"
        (fun _ _ _ => (.error ⟨some 401, "unauthorized"⟩ : Except UpstreamError Unit))).upstreamCalls = 2 ∧
     ∃ e, (executeNotionOperation (List.replicate 32 0) [9] [] "L" (fun _ => .ok ⟨"new", none, some 60, none, none, none⟩)
        (fun _ => none) false
        (VaultState.mk (some
          { encrypted_access_token := none, access_token_iv := none
            encrypted_refresh_token := some ⟨[], ⟨List.replicate 32 0, [5], []⟩⟩
            refresh_token_iv := some [5]
            expires_at := 0, scope := none, workspace_id := none, workspace_name := none
            status := .active, refresh_count := 0, last_used_at := none
            refreshed_at := none, disconnected_at := none, created_at := 0, updated_at := 0 })
          (some ("cached", 7)) none) 0 "search"
        (fun _ _ _ => (.error ⟨some 401, "unauthorized"⟩ : Except UpstreamError Unit))).result
        = .error (.operation e) ∧ isAuthError e = true) :=
  (C4_retry_once_bound (List.replicate 32 0) [9] [] "L"
    (fun _ => .ok ⟨"new", none, some 60, none, none, none⟩) (fun _ => none) false
    (VaultState.mk (some
      { encrypted_access_token := none, access_token_iv := none
        encrypted_refresh_token := some ⟨[], ⟨List.replicate 32 0, [5], []⟩⟩
        refresh_token_iv := some [5]
        expires_at := 0, scope := none, workspace_id := none, workspace_name := none
        status := .active, refresh_count := 0, last_used_at := none
        refreshed_at := none, disconnected_at := none, created_at := 0, updated_at := 0 })
      (some ("cached", 7)) none) 0 "search"
    (fun _ _ _ => (.error ⟨some 401, "unauthorized"⟩ : Except UpstreamError Unit))
    "cached" "new" rfl
    (by simp [getValidAccessToken, refreshAccessToken, refreshCritical, decryptToken,
      decryptAES256GCM, gcmXor, refreshLoop, TOKEN_REFRESH_MAX_RETRIES, encryptToken,
      encryptAES256GCM, updateTokensAfterRefresh])
    (fun t m i => ⟨⟨some 401, "unauthorized"⟩, rfl, by decide⟩)).1

/-- C8: whenever discovery is unreachable (network failure, non-2xx) or
incomplete (no authorization servers declared, AS metadata fetch
failing, or AS metadata missing endpoints / S256 support), the
discoverer returns the statically known Notion endpoints instead of
failing; and for arbitrary fetch outcomes the returned metadata always
carries both an authorization endpoint and a token endpoint. -/
theorem C8_discovery_fallback :
    (∀ asResp, discoverOAuthMetadata .network asResp = notionFallbackMetadata) ∧
    (∀ s asResp, discoverOAuthMetadata (.httpError s) asResp = notionFallbackMetadata) ∧
    (∀ rm, rm.authorization_servers = [] →
      ∀ asResp, discoverOAuthMetadata (.ok rm) asResp = notionFallbackMetadata) ∧
    (∀ rm, discoverOAuthMetadata (.ok rm) .network = notionFallbackMetadata) ∧
    (∀ rm s, discoverOAuthMetadata (.ok rm) (.httpError s) = notionFallbackMetadata) ∧
    (∀ rm m, ¬(m.authorization_endpoint.isSome = true ∧ m.token_endpoint.isSome = true ∧
        (m.code_challenge_methods_supported.getD []).contains "S256" = true) →
      discoverOAuthMetadata (.ok rm) (.ok m) = notionFallbackMetadata) ∧
    (∀ r a, (discoverOAuthMetadata r a).authorization_endpoint.isSome = true ∧
      (discoverOAuthMetadata r a).token_endpoint.isSome = true) := by
  refine ⟨?_, ?_, ?_, ?_, ?_, ?_, ?_⟩
  · intro asResp; rfl
  · intro s asResp; rfl
  · intro rm h asResp
    simp [discoverOAuthMetadata, h]
  · intro rm
    cases h : rm.authorization_servers with
    | nil => simp [discoverOAuthMetadata, h]
    | cons a t => simp [discoverOAuthMetadata, h, fetchAuthorizationServerMetadata]
  · intro rm s
    cases h : rm.authorization_servers with
    | nil => simp [discoverOAuthMetadata, h]
    | cons a t => simp [discoverOAuthMetadata, h, fetchAuthorizationServerMetadata]
  · intro rm m hbad
    cases h : rm.authorization_servers with
    | nil => simp [discoverOAuthMetadata, h]
    | cons a t =>
      simp only [discoverOAuthMetadata, h, fetchAuthorizationServerMetadata]
      rw [if_neg (by exact_mod_cast hbad)]
  · intro r a
    cases r with
    | network => exact ⟨rfl, rfl⟩
    | httpError s => exact ⟨rfl, rfl⟩
    | ok rm =>
      cases h : rm.authorization_servers with
      | nil => simp [discoverOAuthMetadata, h, notionFallbackMetadata]
      | cons x t =>
        simp only [discoverOAuthMetadata, h]
        cases a with
        | network => exact ⟨rfl, rfl⟩
        | httpError s => exact ⟨rfl, rfl⟩
        | ok m =>
          simp only [fetchAuthorizationServerMetadata]
          by_cases hv : m.authorization_endpoint.isSome = true ∧ m.token_endpoint.isSome = true ∧
              (m.code_challenge_methods_supported.getD []).contains "S256" = true
          · rw [if_pos (by exact_mod_cast hv)]
            exact ⟨hv.1, hv.2.1⟩
          · rw [if_neg (by exact_mod_cast hv)]
            exact ⟨rfl, rfl⟩

/-- C8 witness: a network failure at the first discovery step falls
back to endpoints that are present. -/
theorem C8_discovery_fallback_witness :
    discoverOAuthMetadata .network (.ok ⟨"i", none, none, none⟩) = notionFallbackMetadata ∧
    (discoverOAuthMetadata (.ok ⟨["srv"]⟩) (.ok ⟨"i", none, none, none⟩)
        = notionFallbackMetadata) ∧
    (discoverOAuthMetadata .network .network).authorization_endpoint.isSome = true :=
  ⟨C8_discovery_fallback.1 (.ok ⟨"i", none, none, none⟩),
   C8_discovery_fallback.2.2.2.2.2.1 ⟨["srv"]⟩ ⟨"i", none, none, none⟩ (by decide),
   (C8_discovery_fallback.2.2.2.2.2.2 .network .network).1⟩

theorem validate_ok_inv (key : List Nat) (db : List StateRow) (received sess : String)
    (now : Nat) (val : CallbackValidation)
    (h : (validateCallbackState key db received sess now).1 = .ok val) :
    ∃ r, db.find? (fun q => q.state_value = received) = some r ∧
      r.consumed = false ∧ r.user_id = sess ∧ val.userId = r.user_id ∧
      (validateCallbackState key db received sess now).2 =
        db.map (fun q => if q.id = r.id then { q with consumed := true } else q) := by
  cases hfind : db.find? (fun q => q.state_value = received) with
  | none => simp [validateCallbackState, hfind] at h
  | some r =>
    by_cases hc : r.consumed = true
    · simp [validateCallbackState, hfind, hc] at h
    · by_cases hexp : r.expires_at < now
      · simp [validateCallbackState, hfind, hc, hexp] at h
      · by_cases huser : r.user_id = sess
        · cases hdec : decryptAES256GCM r.encrypted_pkce_verifier r.pkce_verifier_iv key with
          | error e =>
            simp [validateCallbackState, hfind, hc, hexp, huser, hdec] at h
          | ok verifier =>
            have hval : validateCallbackState key db received sess now =
                (.ok ⟨true, verifier, r.user_id⟩,
                 db.map (fun q => if q.id = r.id then { q with consumed := true } else q)) := by
              simp [validateCallbackState, hfind, hc, hexp, huser, hdec]
            rw [hval] at h
            simp only [Except.ok.injEq] at h
            refine ⟨r, rfl, by simpa using hc, huser, ?_, by rw [hval]⟩
            rw [← h]
        · simp [validateCallbackState, hfind, hc, hexp, huser] at h

/-- C10: after a successful `handleCallback`, no consumed OAuthState
rows remain stored for that user (the final DELETE removes them), and —
states being unique, as the `oauth_states.state_value` UNIQUE
constraint guarantees — presenting the same state value to `validate`
again fails with UnknownState (the row is gone), not with
ReplayDetected. -/
theorem C10_callback_state_cleanup (key ivA ivR : List Nat)
    (exchange : String → String → Except CoreError TokenResponse)
    (sys : SysState) (code state sess : String) (now : Nat) (res : Bool × Option String)
    (hok : (handleCallback key ivA ivR exchange sys code state sess now).1 = .ok res) :
    (∀ r ∈ (handleCallback key ivA ivR exchange sys code state sess now).2.states,
      ¬(r.user_id = sess ∧ r.consumed = true)) ∧
    (sys.states.Pairwise (fun a b => a.state_value ≠ b.state_value) →
      (validateCallbackState key
          (handleCallback key ivA ivR exchange sys code state sess now).2.states
          state sess now).1 = .error .oauthUnknownState) := by
  rcases hval : validateCallbackState key sys.states state sess now with ⟨vres, db'⟩
  cases vres with
  | error e =>
    simp only [handleCallback, hval] at hok
    simp at hok
  | ok validation =>
    obtain ⟨r, hfind, hcons, huser, hvuid, hsnd⟩ := validate_ok_inv key sys.states state sess
      now validation (by rw [hval])
    have hdb' : db' = sys.states.map
        (fun q => if q.id = r.id then { q with consumed := true } else q) := by
      rw [hval] at hsnd
      exact hsnd
    cases hex : exchange code validation.verifier with
    | error e =>
      simp only [handleCallback, hval, hex] at hok
      simp at hok
    | ok tokenData =>
      cases hst : storeTokens key ivA ivR sys.vault now tokenData with
      | error e =>
        simp only [handleCallback, hval, hex, hst] at hok
        simp at hok
      | ok v' =>
        have hrun : handleCallback key ivA ivR exchange sys code state sess now =
            (.ok (true, tokenData.workspace_name),
             { states := db'.filter (fun q => !(q.user_id = validation.userId && q.consumed))
               vault := v' }) := by
          simp only [handleCallback, hval, hex, hst]
        rw [hrun]
        constructor
        · intro x hx
          simp only [List.mem_filter] at hx
          rintro ⟨hxu, hxc⟩
          have hcond := hx.2
          rw [hvuid, huser] at hcond
          simp [hxu, hxc] at hcond
        · intro hpw
          have hnone : (db'.filter
              (fun q => !(q.user_id = validation.userId && q.consumed))).find?
              (fun q => q.state_value = state) = none := by
            rw [List.find?_eq_none]
            intro x hx hpx
            simp only [List.mem_filter] at hx
            obtain ⟨hxmem, hxcond⟩ := hx
            rw [hdb'] at hxmem
            simp only [List.mem_map] at hxmem
            obtain ⟨q0, hq0mem, hq0eq⟩ := hxmem
            have hxval : x.state_value = state := by simpa using hpx
            have hq0val : q0.state_value = state := by
              by_cases hq : q0.id = r.id <;> rw [← hq0eq] at hxval <;> simpa [hq] using hxval
            have hrmem : r ∈ sys.states := List.mem_of_find?_eq_some hfind
            have hrval : r.state_value = state := by
              have hp := List.find?_some hfind
              simpa using hp
            have hsymm : Symmetric (fun a b : StateRow => a.state_value ≠ b.state_value) :=
              fun _ _ h h2 => h h2.symm
            have hq0r : q0 = r := by
              by_contra hne
              exact (hpw.forall hsymm hq0mem hrmem hne) (hq0val.trans hrval.symm)
            rw [hq0r] at hq0eq
            simp only [if_pos rfl] at hq0eq
            rw [← hq0eq] at hxcond
            rw [hvuid] at hxcond
            simp at hxcond
          simp only [validateCallbackState, hnone]

/-- C10 witness: a concrete fresh state row validated, exchanged and
cleaned up; afterwards the table is empty and revalidation reports an
unknown state. -/
theorem C10_callback_state_cleanup_witness :
    (∀ r ∈ (handleCallback (List.replicate 32 0) [8] []
        (fun _ _ => .ok ⟨"at", none, some 60, none, none, none⟩)
        ⟨[⟨1, "s", "u", ⟨[], ⟨List.replicate 32 0, [5], []⟩⟩, [5], 100, false⟩],
         VaultState.mk none none none⟩ "c" "s" "u" 0).2.states,
      ¬(r.user_id = "u" ∧ r.consumed = true)) ∧
    (validateCallbackState (List.replicate 32 0)
        (handleCallback (List.replicate 32 0) [8] []
          (fun _ _ => .ok ⟨"at", none, some 60, none, none, none⟩)
          ⟨[⟨1, "s", "u", ⟨[], ⟨List.replicate 32 0, [5], []⟩⟩, [5], 100, false⟩],
           VaultState.mk none none none⟩ "c" "s" "u" 0).2.states
        "s" "u" 0).1 = .error .oauthUnknownState := by
  have h := C10_callback_state_cleanup (List.replicate 32 0) [8] []
    (fun _ _ => .ok ⟨"at", none, some 60, none, none, none⟩)
    ⟨[⟨1, "s", "u", ⟨[], ⟨List.replicate 32 0, [5], []⟩⟩, [5], 100, false⟩],
     VaultState.mk none none none⟩ "c" "s" "u" 0 (true, none)
    (by simp [handleCallback, validateCallbackState, decryptAES256GCM, gcmXor, bytesToStr,
      storeTokens, encryptToken, encryptAES256GCM, upsertConnection])
  exact ⟨h.1, h.2 (by simp)⟩

/-- A poll observation that makes `waitForRefresh` stop: the row is
present, its `expires_at` exceeds the poll time by more than 60 s, and
both encrypted access-token fields are present. -/
def goodPoll (obs : Nat → Option Conn) (start i : Nat) : Prop :=
  ∃ c, obs i = some c ∧
    c.expires_at > start + (i + 1) * TOKEN_REFRESH_WAIT_POLL_MS + 60000 ∧
    c.encrypted_access_token.isSome = true ∧ c.access_token_iv.isSome = true

theorem waitLoop_timeout (key : List Nat) (obs : Nat → Option Conn) (start : Nat) :
    ∀ fuel i, (∀ k, k < fuel → ¬ goodPoll obs start (i + k)) →
      waitLoop key obs start fuel i = .error .concurrentRefreshTimeout := by
  intro fuel
  induction fuel with
  | zero => intro i h; rfl
  | succ n ih =>
    intro i h
    have h0 : ¬ goodPoll obs start i := by
      have := h 0 (Nat.succ_pos n)
      simpa using this
    have hrest : ∀ k, k < n → ¬ goodPoll obs start (i + 1 + k) := by
      intro k hk
      have := h (k + 1) (Nat.succ_lt_succ hk)
      rw [Nat.add_comm k 1, ← Nat.add_assoc] at this
      exact this
    cases hobs : obs i with
    | none =>
      simp only [waitLoop, hobs]
      exact ih (i + 1) hrest
    | some c =>
      by_cases hexp : c.expires_at > start + (i + 1) * TOKEN_REFRESH_WAIT_POLL_MS + 60000
      · cases hat : c.encrypted_access_token with
        | none =>
          simp only [waitLoop, hobs, if_pos hexp, hat]
          exact ih (i + 1) hrest
        | some ct =>
          cases hiv : c.access_token_iv with
          | none =>
            simp only [waitLoop, hobs, if_pos hexp, hat, hiv]
            exact ih (i + 1) hrest
          | some iv =>
            exact absurd ⟨c, hobs, hexp, by rw [hat]; rfl, by rw [hiv]; rfl⟩ h0
      · simp only [waitLoop, hobs, if_neg hexp]
        exact ih (i + 1) hrest

theorem waitLoop_first_good (key : List Nat) (obs : Nat → Option Conn) (start : Nat) :
    ∀ fuel i j, i ≤ j → j < i + fuel → goodPoll obs start j →
      (∀ k, i ≤ k → k < j → ¬ goodPoll obs start k) →
      ∃ c ct iv, obs j = some c ∧ c.encrypted_access_token = some ct ∧
        c.access_token_iv = some iv ∧
        waitLoop key obs start fuel i = decryptToken key ct iv := by
  intro fuel
  induction fuel with
  | zero =>
    intro i j hij hlt hgood hmin
    exact absurd hlt (by omega)
  | succ n ih =>
    intro i j hij hlt hgood hmin
    rcases Nat.eq_or_lt_of_le hij with heq | hlt2
    · subst heq
      obtain ⟨c, hobs, hexp, hat, hiv⟩ := hgood
      obtain ⟨ct, hct⟩ := Option.isSome_iff_exists.mp hat
      obtain ⟨iv, hivv⟩ := Option.isSome_iff_exists.mp hiv
      refine ⟨c, ct, iv, hobs, hct, hivv, ?_⟩
      simp only [waitLoop, hobs, if_pos hexp, hct, hivv]
    · have hbad : ¬ goodPoll obs start i := hmin i (Nat.le_refl i) hlt2
      have hrec := ih (i + 1) j hlt2 (by omega) hgood
        (fun k hk1 hk2 => hmin k (Nat.le_of_succ_le hk1) hk2)
      obtain ⟨c, ct, iv, hobs, hct, hivv, hloop⟩ := hrec
      refine ⟨c, ct, iv, hobs, hct, hivv, ?_⟩
      cases hobsi : obs i with
      | none => simp only [waitLoop, hobsi]; exact hloop
      | some ci =>
        by_cases hexp : ci.expires_at > start + (i + 1) * TOKEN_REFRESH_WAIT_POLL_MS + 60000
        · cases hat : ci.encrypted_access_token with
          | none => simp only [waitLoop, hobsi, if_pos hexp, hat]; exact hloop
          | some cti =>
            cases hivi : ci.access_token_iv with
            | none => simp only [waitLoop, hobsi, if_pos hexp, hat, hivi]; exact hloop
            | some ivi =>
              exact absurd ⟨ci, hobsi, hexp, by rw [hat]; rfl, by rw [hivi]; rfl⟩ hbad
        · simp only [waitLoop, hobsi, if_neg hexp]
          exact hloop

/-- C6 (amended): when `refreshAccessToken` cannot take the per-user
lock it delegates to `waitForRefresh` without writing state or calling
the token endpoint; the wait polls the Connection row every 250 ms for
20 polls (5 s timeout) and succeeds — returning the decrypted stored
access token — at the first poll that observes `expires_at` more than
60 seconds beyond the poll time with the encrypted access-token fields
present; if no poll in the window observes that, it fails with
ConcurrentRefreshTimeout. -/
theorem C6_wait_for_refresh_amended (key ivA ivR : List Nat) (lockValue : String)
    (responses : Nat → RefreshResponse) (waitObs : Nat → Option Conn)
    (v : VaultState) (now : Nat) (hlock : v.lock.isSome = true) :
    (refreshAccessToken key ivA ivR lockValue responses waitObs v now =
      { result := waitForRefresh key waitObs now, state := v, endpointCalls := 0 }) ∧
    ((∀ i, i < 20 → ¬ goodPoll waitObs now i) →
      waitForRefresh key waitObs now = .error .concurrentRefreshTimeout) ∧
    (∀ j, j < 20 → goodPoll waitObs now j → (∀ i, i < j → ¬ goodPoll waitObs now i) →
      ∃ c ct iv, waitObs j = some c ∧ c.encrypted_access_token = some ct ∧
        c.access_token_iv = some iv ∧
        waitForRefresh key waitObs now = decryptToken key ct iv) := by
  refine ⟨?_, ?_, ?_⟩
  · simp [refreshAccessToken, hlock]
  · intro h
    exact waitLoop_timeout key waitObs now 20 0 (fun k hk => by simpa using h k hk)
  · intro j hj hgood hmin
    exact waitLoop_first_good key waitObs now 20 0 j (Nat.zero_le j) (by omega) hgood
      (fun k _ hk2 => hmin k hk2)

/-- Constants of the C6 refutation: a key, a decryptable blob and a
Connection row whose `expires_at` is in the future at every poll of the
wait window but never more than 60 s beyond the poll time. -/
def cexWaitKey : List Nat := List.replicate 32 0

def cexWaitBlob : CipherBlob := ⟨[], ⟨cexWaitKey, [5], []⟩⟩

def cexWaitConn : Conn :=
  { encrypted_access_token := some cexWaitBlob
    access_token_iv := some [5]
    encrypted_refresh_token := none
    refresh_token_iv := none
    expires_at := 60000
    scope := none
    workspace_id := none
    workspace_name := none
    status := .active
    refresh_count := 0
    last_used_at := none
    refreshed_at := none
    disconnected_at := none
    created_at := 0
    updated_at := 0 }

/-- C6 counterexample: starting at time 0, every poll observes a row
whose `expires_at` (60 s) is in the future relative to the poll time
and whose stored access token decrypts fine — so the claim as stated
requires the wait to succeed with the decrypted token — yet the code
times out with ConcurrentRefreshTimeout, because it additionally
requires `expires_at` to exceed the poll time by more than 60 s. -/
theorem C6_wait_for_refresh_counterexample :
    (∀ i, i < 20 → cexWaitConn.expires_at > 0 + (i + 1) * TOKEN_REFRESH_WAIT_POLL_MS) ∧
    cexWaitConn.encrypted_access_token = some cexWaitBlob ∧
    cexWaitConn.access_token_iv = some [5] ∧
    decryptToken cexWaitKey cexWaitBlob [5] = .ok "" ∧
    waitForRefresh cexWaitKey (fun _ => some cexWaitConn) 0 =
      .error .concurrentRefreshTimeout := by
  refine ⟨by decide, rfl, rfl, rfl, ?_⟩
  rfl

/-- C6 witness for the amended statement: a held lock delegates to the
wait, and a wait that never observes a row times out. -/
theorem C6_wait_for_refresh_amended_witness :
    (refreshAccessToken cexWaitKey [] [] "L" (fun _ => .network) (fun _ => none)
        (VaultState.mk none none (some "other")) 0 =
      { result := waitForRefresh cexWaitKey (fun _ => none) 0
        state := VaultState.mk none none (some "other")
        endpointCalls := 0 }) ∧
    waitForRefresh cexWaitKey (fun _ => none) 0 = .error .concurrentRefreshTimeout :=
  ⟨(C6_wait_for_refresh_amended cexWaitKey [] [] "L" (fun _ => .network) (fun _ => none)
      (VaultState.mk none none (some "other")) 0 rfl).1,
   (C6_wait_for_refresh_amended cexWaitKey [] [] "L" (fun _ => .network) (fun _ => none)
      (VaultState.mk none none (some "other")) 0 rfl).2.1
      (fun i _ h => by obtain ⟨c, hc, _⟩ := h; exact Option.noConfusion hc)⟩

end NotionMCP
